import Mathlib

/-!
Verification development for the Stat-tools repository.

The Python sources are shallowly embedded over exact rationals (ℚ):
Python/NumPy floating-point values become rationals, so algebraic
identities that the code establishes by construction hold exactly here.
External numerical primitives from scipy / numpy / pandas-adjacent code
(the t-distribution percent-point function, numpy square root, scipy
pearsonr, f_oneway and ttest_ind) are abstracted as components of a
`Numerics` record: the embedded functions are parametric in them, exactly
as the scripts are parametric in the library implementations.  A Python
function that may raise is embedded as `Except StatError`;
a function whose body contains no raise is embedded with an `Except.ok`
result on every path.
-/

namespace StatTools

/-- Error kinds named by the specification (section 7). -/
inductive StatError where
  | InvalidSampleSize (msg : String) : StatError
  | InvalidAlpha (msg : String) : StatError
  | DegenerateInput (msg : String) : StatError
  | DomainError (msg : String) : StatError
  | ValidationError (msg : String) : StatError
deriving DecidableEq, Repr

/-- Abstracted external numerical primitives (scipy / numpy / statsmodels).
`tppf p df` stands for `scipy.stats.t.ppf(p, df)`; `sqrtnp` for `np.sqrt`
(also `pandas.Series.std` is `sqrtnp` of the Bessel-corrected variance);
`pearsonr`, `f_oneway` and `ttest_ind` return the (statistic, p-value)
pairs of the corresponding scipy calls. -/
structure Numerics where
  sqrtnp : ℚ → ℚ
  tppf : ℚ → ℤ → ℚ
  pearsonr : List ℚ → List ℚ → ℚ × ℚ
  f_oneway : List (List ℚ) → ℚ × ℚ
  ttest_ind : List ℚ → List ℚ → ℚ × ℚ

/-- `np.mean` / `sum(xs)/len(xs)`: arithmetic mean of a list. -/
def npmean (l : List ℚ) : ℚ := l.sum / (l.length : ℚ)

/-- Bessel-corrected sample variance, `ddof=1` (the quantity under the
square root in `pandas.Series.std()` and `np.std(_, ddof=1)`). -/
def sampleVar (l : List ℚ) : ℚ :=
  (l.map (fun x => (x - npmean l) ^ 2)).sum / ((l.length : ℚ) - 1)

/-- `itertools.combinations(l, 2)`: all unordered pairs in order of first
appearance of the first then the second element. -/
def pairsOf {α : Type} : List α → List (α × α)
  | [] => []
  | x :: xs => (xs.map (fun y => (x, y))) ++ pairsOf xs

/-! ## src/weighted_mean.py -/

/-- `weighted_mean` from src/weighted_mean.py, lines 1-20, with the
console I/O stripped: the four integer rating frequencies are the
arguments and the printed outcome is the return value (`none` embeds
the "No respondents" message, `some m` the printed weighted mean).
Python integer division by `/` is true division, embedded as ℚ. -/
def weighted_mean (f4 f3 f2 f1 : ℤ) : Option ℚ :=
  let weighted_sum : ℤ := 4 * f4 + 3 * f3 + 2 * f2 + 1 * f1
  let total_f : ℤ := f4 + f3 + f2 + f1
  if total_f = 0 then none
  else some ((weighted_sum : ℚ) / (total_f : ℚ))

/-! ## src/pearson-r_crit_app_gui/stats_utils.py -/

/-- `validate_sample_size` from stats_utils.py lines 11-33.  The GUI
passes the entry text; the string-to-float conversion is out of scope,
so the argument is already a number.  Returns `(is_valid, message)`. -/
def validate_sample_size (n : ℚ) : Bool × String :=
  if n < 3 then (false, "Sample size must be at least 3")
  else if ¬ n.isInt then (false, "Sample size must be a whole number")
  else (true, "")

/-- `validate_alpha` from stats_utils.py lines 36-56. -/
def validate_alpha (alpha : ℚ) : Bool × String :=
  if alpha ≤ 0 ∨ 1 ≤ alpha then
    (false, "Alpha must be between 0 and 1 (exclusive)")
  else (true, "")

/-- `compute_degrees_of_freedom` from stats_utils.py lines 59-75. -/
def compute_degrees_of_freedom (n : ℤ) : ℤ := n - 2

/-- `compute_t_critical` from stats_utils.py lines 78-106:
`t.ppf(1 - alpha/2, df)` when `test_type == "two-tailed"`, else
`t.ppf(1 - alpha, df)`. -/
def compute_t_critical (nm : Numerics) (alpha : ℚ) (df : ℤ)
    (test_type : String) : ℚ :=
  if test_type = "two-tailed" then nm.tppf (1 - alpha / 2) df
  else nm.tppf (1 - alpha) df

/-- The result dictionary of `compute_pearson_r_critical`. -/
structure CriticalValueResult where
  sample_size : ℤ
  alpha : ℚ
  test_type : String
  degrees_of_freedom : ℤ
  t_critical : ℚ
  r_critical : ℚ
deriving DecidableEq, Repr

/-- `compute_pearson_r_critical` from stats_utils.py lines 109-161.
The body performs no input validation and contains no raise: every
numeric call (`t.ppf`, `np.sqrt`) returns a value (possibly NaN in
Python), so the embedding is `Except.ok` on every path; the `Except`
codomain records that Python callers see an exception channel that this
function never uses. -/
def compute_pearson_r_critical (nm : Numerics) (n : ℤ) (alpha : ℚ)
    (test_type : String) : Except StatError CriticalValueResult :=
  let df := compute_degrees_of_freedom n
  let t_crit := compute_t_critical nm alpha df test_type
  let r_crit := nm.sqrtnp (t_crit ^ 2 / (t_crit ^ 2 + (df : ℚ)))
  Except.ok
    { sample_size := n
      alpha := alpha
      test_type := test_type
      degrees_of_freedom := df
      t_critical := t_crit
      r_critical := r_crit }

/-! ## src/pearsonR.py (script, lines 5-13) -/

/-- The constants of the script src/pearsonR.py: `n = 99`,
`df = n - 2`. -/
def pearsonR_df : ℤ := 99 - 2

/-- `t_crit = t.ppf(1 - alpha/2, df)` with `alpha = 0.05` from
src/pearsonR.py line 10. -/
def pearsonR_t_crit (nm : Numerics) : ℚ :=
  nm.tppf (1 - (1/20) / 2) pearsonR_df

/-- `r_crit = np.sqrt(t_crit**2 / (t_crit**2 + df))` from
src/pearsonR.py line 11. -/
def pearsonR_r_crit (nm : Numerics) : ℚ :=
  nm.sqrtnp (pearsonR_t_crit nm ^ 2 / (pearsonR_t_crit nm ^ 2 + (pearsonR_df : ℚ)))

/-! ## src/Anova/ANOVA1.py and src/anova.py: `manual_anova` -/

/-- The tuple returned by `manual_anova` (identical in
src/Anova/ANOVA1.py lines 41-56 and src/anova.py lines 74-103). -/
structure AnovaOut where
  SS_between : ℚ
  SS_within : ℚ
  SS_total : ℚ
  df_between : ℤ
  df_within : ℤ
  MS_between : ℚ
  MS_within : ℚ
  F_calculated : ℚ
deriving DecidableEq, Repr

/-- `manual_anova` from src/Anova/ANOVA1.py lines 41-56 (and verbatim in
src/anova.py lines 74-103).  The body performs no validation and raises
nothing for the inputs in scope (k ≥ 1 nonempty groups): NumPy division
by a zero degree count or a zero mean square emits a warning and yields
inf/nan but does not raise, so every path is `Except.ok`.  (In this
rational embedding division by zero yields 0 where NumPy would yield
inf; no claim below depends on the value at such a point, only on the
absence of an error.) -/
def manual_anova (groups : List (List ℚ)) : Except StatError AnovaOut :=
  let all_data := groups.flatten
  let grand_mean := npmean all_data
  let k := groups.length
  let N := all_data.length
  let SS_total := (all_data.map (fun x => (x - grand_mean) ^ 2)).sum
  let SS_between :=
    (groups.map (fun g => (g.length : ℚ) * (npmean g - grand_mean) ^ 2)).sum
  let SS_within := SS_total - SS_between
  let df_between : ℤ := (k : ℤ) - 1
  let df_within : ℤ := (N : ℤ) - (k : ℤ)
  let MS_between := SS_between / (df_between : ℚ)
  let MS_within := SS_within / (df_within : ℚ)
  let F_calculated := MS_between / MS_within
  Except.ok
    { SS_between := SS_between
      SS_within := SS_within
      SS_total := SS_total
      df_between := df_between
      df_within := df_within
      MS_between := MS_between
      MS_within := MS_within
      F_calculated := F_calculated }

/-! ## src/pearson-r_crit_app_gui/excel_utils.py -/

/-- A pandas DataFrame restricted to what the correlation pipeline uses:
named numeric columns whose entries may be missing (`none` embeds NaN).
`get_numeric_columns` selects the numeric-dtype columns; since only
numeric columns take part in every claim, the frame model carries
numeric columns only and the dtype test always passes. -/
def Frame : Type := List (String × List (Option ℚ))

/-- `len(df)`: the number of rows of the frame. -/
def rowCount (df : Frame) : ℕ :=
  match df with
  | [] => 0
  | (_, c) :: _ => c.length

/-- `col in df.columns` and `df[col]` combined: column lookup by name,
`none` when the column does not exist. -/
def getCol : Frame → String → Option (List (Option ℚ))
  | [], _ => none
  | (nme, c) :: rest, s => if nme = s then some c else getCol rest s

/-- `get_numeric_columns` from excel_utils.py lines 39-52 (all modelled
columns are numeric). -/
def get_numeric_columns (df : Frame) : List String := df.map Prod.fst

/-- A row of two columns survives `dropna` exactly when neither entry
is missing. -/
def pairOpt : Option ℚ × Option ℚ → Option (ℚ × ℚ)
  | (some x, some y) => some (x, y)
  | _ => none

/-- `df[[col1, col2]].dropna()`: paired removal of rows missing in
either column (excel_utils.py lines 84-85 and 116-117). -/
def cleanPair (xs ys : List (Option ℚ)) : List (ℚ × ℚ) :=
  (xs.zip ys).filterMap pairOpt

/-- `pandas.Series.std()` (ddof = 1): `np.sqrt` of the Bessel-corrected
sample variance. -/
def seriesStd (nm : Numerics) (l : List ℚ) : ℚ := nm.sqrtnp (sampleVar l)

/-- `validate_columns_for_correlation` from excel_utils.py lines 55-98:
existence of both columns, numeric dtype (always true in this model),
at least 3 rows after paired NaN removal, and nonzero standard
deviation of each cleaned column.  Returns `(is_valid, message)`. -/
def validate_columns_for_correlation (nm : Numerics) (df : Frame)
    (col1 col2 : String) : Bool × String :=
  match getCol df col1, getCol df col2 with
  | none, _ => (false, "Column not found in the Excel file")
  | some _, none => (false, "Column not found in the Excel file")
  | some xs, some ys =>
    let clean_data := cleanPair xs ys
    if clean_data.length < 3 then
      (false, "Not enough valid data points (need at least 3)")
    else if seriesStd nm (clean_data.map Prod.fst) = 0 then
      (false, "Column has zero variance (all values are the same)")
    else if seriesStd nm (clean_data.map Prod.snd) = 0 then
      (false, "Column has zero variance (all values are the same)")
    else (true, "")

/-- The dictionary returned by `compute_correlation_from_data`. -/
structure CorrOut where
  column_1 : String
  column_2 : String
  sample_size : ℕ
  r_value : ℚ
  p_value : ℚ
  original_rows : ℕ
  rows_with_missing : ℕ
deriving DecidableEq, Repr

/-- `compute_correlation_from_data` from excel_utils.py lines 101-137:
drop paired NaNs, run `scipy.stats.pearsonr` on the two cleaned columns,
record the sizes.  Callers validate first, so both columns exist; a
missing column is embedded as the empty series. -/
def compute_correlation_from_data (nm : Numerics) (df : Frame)
    (col1 col2 : String) : CorrOut :=
  let xs := (getCol df col1).getD []
  let ys := (getCol df col2).getD []
  let clean_data := cleanPair xs ys
  let x := clean_data.map Prod.fst
  let y := clean_data.map Prod.snd
  let rp := nm.pearsonr x y
  { column_1 := col1
    column_2 := col2
    sample_size := clean_data.length
    r_value := rp.1
    p_value := rp.2
    original_rows := rowCount df
    rows_with_missing := rowCount df - clean_data.length }

/-- The merged result dictionary of `analyze_excel_correlation` /
`get_all_correlation_pairs`: the correlation dictionary, the critical
value dictionary (the Python dict merge `{**corr, **crit}`; the only
shared key, `sample_size`, carries the same value in both) and the
significance flag. -/
structure CorrelationResult where
  corr : CorrOut
  crit : CriticalValueResult
  is_significant : Bool
deriving DecidableEq, Repr

/-- `analyze_excel_correlation` from excel_utils.py lines 140-198 with
the file reading (`read_excel_file`, presentation I/O) stripped: the
frame stands for the successfully-read dataframe.  Validates the two
columns, computes the correlation and the critical value, and sets
`is_significant = abs(r_value) > r_critical`.  A validation failure is
the `(False, None, error)` return, embedded as `Except.error`. -/
def analyze_excel_correlation (nm : Numerics) (df : Frame)
    (col1 col2 : String) (alpha : ℚ) (test_type : String) :
    Except StatError CorrelationResult :=
  let v := validate_columns_for_correlation nm df col1 col2
  if v.1 = false then Except.error (StatError.ValidationError v.2)
  else
    let corr_results := compute_correlation_from_data nm df col1 col2
    match compute_pearson_r_critical nm (corr_results.sample_size : ℤ)
        alpha test_type with
    | Except.error e => Except.error e
    | Except.ok critical_results =>
      Except.ok
        { corr := corr_results
          crit := critical_results
          is_significant :=
            decide (|corr_results.r_value| > critical_results.r_critical) }

/-- The loop body of `get_all_correlation_pairs` (excel_utils.py lines
230-253) for one column pair: `continue` on failed validation (`none`),
`continue` on any exception from the computations (the `try/except`,
an `Except.error`), otherwise the combined result dictionary. -/
def pairBody (nm : Numerics) (df : Frame) (alpha : ℚ)
    (test_type : String) (p : String × String) :
    Option CorrelationResult :=
  if (validate_columns_for_correlation nm df p.1 p.2).1 = false then
    none
  else
    let corr_results := compute_correlation_from_data nm df p.1 p.2
    match compute_pearson_r_critical nm (corr_results.sample_size : ℤ)
        alpha test_type with
    | Except.error _ => none
    | Except.ok critical_results =>
      some
        { corr := corr_results
          crit := critical_results
          is_significant :=
            decide (|corr_results.r_value| >
              critical_results.r_critical) }

/-- `get_all_correlation_pairs` from excel_utils.py lines 201-255: for
every unordered pair of numeric columns (`itertools.combinations`),
run `pairBody` and keep only its non-skipped results.  The function
itself never raises. -/
def get_all_correlation_pairs (nm : Numerics) (df : Frame) (alpha : ℚ)
    (test_type : String) : List CorrelationResult :=
  let numeric_cols := get_numeric_columns df
  if numeric_cols.length < 2 then []
  else (pairsOf numeric_cols).filterMap (pairBody nm df alpha test_type)

/-! ## src/t-test/t-test.py -/

/-- The result dictionary stored by `IndependentTTestApp.compute_ttest`
(the raw input echoes and the timestamp are presentation state and are
omitted). -/
structure TTestOut where
  mean1 : ℚ
  mean2 : ℚ
  n1 : ℕ
  n2 : ℕ
  t_statistic : ℚ
  df : ℚ
  p_value : ℚ
  conclusion : String
deriving DecidableEq, Repr

/-- `IndependentTTestApp.compute_ttest` from src/t-test/t-test.py lines
161-221, with the GUI text extraction (`parse_input`) stripped: the two
parsed numeric lists are the arguments.  The empty-input and
minimum-size message boxes end the handler without a stored result,
embedded as `none`.  `scipy.stats.ttest_ind(_, _, equal_var=False)` is
the abstracted `ttest_ind`; the Welch-Satterthwaite degrees of freedom
are computed manually from the Bessel-corrected sample variances. -/
def compute_ttest (nm : Numerics) (group1_data group2_data : List ℚ) :
    Option TTestOut :=
  if group1_data.length = 0 ∨ group2_data.length = 0 then none
  else if group1_data.length < 2 ∨ group2_data.length < 2 then none
  else
    let mean1 := group1_data.sum / (group1_data.length : ℚ)
    let mean2 := group2_data.sum / (group2_data.length : ℚ)
    let n1 := group1_data.length
    let n2 := group2_data.length
    let tp := nm.ttest_ind group1_data group2_data
    let var1 :=
      (group1_data.map (fun x => (x - mean1) ^ 2)).sum / ((n1 : ℚ) - 1)
    let var2 :=
      (group2_data.map (fun x => (x - mean2) ^ 2)).sum / ((n2 : ℚ) - 1)
    let df := (var1 / n1 + var2 / n2) ^ 2 /
      ((var1 / n1) ^ 2 / ((n1 : ℚ) - 1) + (var2 / n2) ^ 2 / ((n2 : ℚ) - 1))
    let alpha : ℚ := 1/20
    let conclusion :=
      if tp.2 ≤ alpha then
        "There is a significant difference between the two groups."
      else
        "There is no significant difference between the two groups."
    some
      { mean1 := mean1
        mean2 := mean2
        n1 := n1
        n2 := n2
        t_statistic := tp.1
        df := df
        p_value := tp.2
        conclusion := conclusion }

/-! ## src/Anova/post_hoc.py and the report flow of src/Anova/ANOVA1.py -/

/-- One pairwise comparison row of the Tukey HSD summary. -/
structure TukeyPair where
  group_a : String
  group_b : String
  mean_difference : ℚ
  lower_ci : ℚ
  upper_ci : ℚ
  reject_null : Bool
deriving DecidableEq, Repr

/-- Modelled from the spec: `statsmodels.stats.multicomp.pairwise_tukeyhsd`
(an external library call, only invoked from src/Anova/post_hoc.py and
src/Anova/ANOVA1.py; its body is not in src/).  Per the spec (section
4.5) it produces one entry per unordered pair of groups, ordered by
first appearance of group a then group b; for each pair the mean
difference is mean(b) − mean(a) and the confidence interval and
reject flag come from the studentized range distribution, abstracted
here as the half-width function `qhw` (null rejected exactly when the
interval excludes zero).  The code call site flattens the observations
with one label per observation and the procedure regroups them; this
model takes the groups with one label each directly. -/
def pairwise_tukeyhsd (qhw : String → String → ℚ)
    (groups : List (List ℚ)) (labels : List String) : List TukeyPair :=
  (pairsOf (labels.zip groups)).map (fun pr =>
    let md := npmean pr.2.2 - npmean pr.1.2
    let hw := qhw pr.1.1 pr.2.1
    { group_a := pr.1.1
      group_b := pr.2.1
      mean_difference := md
      lower_ci := md - hw
      upper_ci := md + hw
      reject_null := decide (0 < md - hw ∨ md + hw < 0) })

/-- The values `create_anova_report` computes and returns (the DOCX
rendering, file saving and date stamping are presentation I/O and are
stripped). -/
structure ReportOut where
  anova : AnovaOut
  F_statistic : ℚ
  p_value : ℚ
  posthoc_table : Option (List TukeyPair)
deriving DecidableEq, Repr

/-- `create_anova_report` from src/Anova/ANOVA1.py lines 58-163,
computation only: run `manual_anova`, run `scipy.stats.f_oneway`, and
produce the Tukey HSD post-hoc table exactly when `p_value < 0.05`
(`posthoc_table` is initialized to `None` and assigned only inside the
`if p_value < 0.05` branch).  The DOCX post-hoc table also carries one
header row above the pair rows; this model keeps the pair rows. -/
def create_anova_report (nm : Numerics) (qhw : String → String → ℚ)
    (all_groups : List (List ℚ)) (age_labels : List String) :
    Except StatError ReportOut :=
  match manual_anova all_groups with
  | Except.error e => Except.error e
  | Except.ok a =>
    let fp := nm.f_oneway all_groups
    let posthoc_table : Option (List TukeyPair) :=
      if fp.2 < 1/20 then
        some (pairwise_tukeyhsd qhw all_groups age_labels)
      else none
    Except.ok
      { anova := a
        F_statistic := fp.1
        p_value := fp.2
        posthoc_table := posthoc_table }

/-! ## Helper lemmas and concrete instantiations -/

/-- `pairsOf` yields one element per unordered pair. -/
theorem pairsOf_length {α : Type} (l : List α) :
    (pairsOf l).length = Nat.choose l.length 2 := by
  induction l with
  | nil => rfl
  | cons x xs ih =>
    simp [pairsOf, ih, Nat.choose_succ_succ, Nat.choose_one_right,
      Nat.add_comm]

/-- A list with fewer than two elements has no pairs. -/
theorem pairsOf_eq_nil_of_short {α : Type} (l : List α)
    (h : l.length < 2) : pairsOf l = [] := by
  match l with
  | [] => rfl
  | [x] => rfl
  | x :: y :: xs => simp at h; omega

/-- A concrete instantiation of the abstract numerical primitives, used
to evaluate the embedded pipeline on closed inputs (the identity for the
square root keeps zero-variance detection exact: `sqrt 0 = 0` and
positive rationals stay positive). -/
def nmStub : Numerics where
  sqrtnp := fun x => x
  tppf := fun p _ => p
  pearsonr := fun _ _ => (1/2, 1/100)
  f_oneway := fun _ => (5, 1/100)
  ttest_ind := fun _ _ => (2, 1/25)

/-! ## Claim theorems -/

/-- Claim C1: for every integer n ≥ 3, alpha in (0,1) and both tail
modes, `compute_pearson_r_critical` returns degrees_of_freedom = n − 2
and r_critical = sqrt(t_critical² / (t_critical² + degrees_of_freedom))
where t_critical is the value it also returns, exactly; the script
src/pearsonR.py computes its r_crit by the same identity with
df = 99 − 2. -/
theorem computeCritical_r_identity (nm : Numerics) (n : ℤ) (alpha : ℚ)
    (test_type : String) (hn : 3 ≤ n) (h0 : 0 < alpha) (h1 : alpha < 1)
    (ht : test_type = "two-tailed" ∨ test_type = "one-tailed") :
    ∃ r, compute_pearson_r_critical nm n alpha test_type = Except.ok r ∧
      r.degrees_of_freedom = n - 2 ∧
      r.r_critical = nm.sqrtnp (r.t_critical ^ 2 /
        (r.t_critical ^ 2 + (r.degrees_of_freedom : ℚ))) ∧
      pearsonR_df = 99 - 2 ∧
      pearsonR_r_crit nm = nm.sqrtnp (pearsonR_t_crit nm ^ 2 /
        (pearsonR_t_crit nm ^ 2 + (pearsonR_df : ℚ))) := by
  exact ⟨_, rfl, rfl, rfl, rfl, rfl⟩

/-- Witness for C1 at n = 5, alpha = 1/20, two-tailed. -/
theorem computeCritical_r_identity_witness :
    (3 ≤ (5 : ℤ)) ∧ (0 < (1/20 : ℚ)) ∧ ((1/20 : ℚ) < 1) ∧
    ∃ r, compute_pearson_r_critical nmStub 5 (1/20) "two-tailed" =
        Except.ok r ∧
      r.degrees_of_freedom = 5 - 2 ∧
      r.r_critical = nmStub.sqrtnp (r.t_critical ^ 2 /
        (r.t_critical ^ 2 + (r.degrees_of_freedom : ℚ))) ∧
      pearsonR_df = 99 - 2 ∧
      pearsonR_r_crit nmStub = nmStub.sqrtnp (pearsonR_t_crit nmStub ^ 2 /
        (pearsonR_t_crit nmStub ^ 2 + (pearsonR_df : ℚ))) :=
  ⟨by decide, by norm_num, by norm_num,
    computeCritical_r_identity nmStub 5 (1/20) "two-tailed" (by decide)
      (by norm_num) (by norm_num) (Or.inl rfl)⟩

/-- Claim C2: for every GroupSet with k ≥ 2 groups each of size ≥ 2,
`manual_anova` returns SS_between = Σ size(g)·(mean(g) − grandMean)²,
SS_total = Σ (x − grandMean)², SS_within = SS_total − SS_between
(derived by subtraction), MS_between = SS_between/(k−1),
MS_within = SS_within/(N−k), F = MS_between/MS_within, and
SS_between + SS_within = SS_total holds exactly. -/
theorem manual_anova_decomposition (groups : List (List ℚ))
    (hk : 2 ≤ groups.length) (hg : ∀ g ∈ groups, 2 ≤ g.length) :
    ∃ r, manual_anova groups = Except.ok r ∧
      r.SS_between = (groups.map (fun g =>
        (g.length : ℚ) * (npmean g - npmean groups.flatten) ^ 2)).sum ∧
      r.SS_total = (groups.flatten.map (fun x =>
        (x - npmean groups.flatten) ^ 2)).sum ∧
      r.SS_within = r.SS_total - r.SS_between ∧
      r.MS_between = r.SS_between / ((groups.length : ℚ) - 1) ∧
      r.MS_within = r.SS_within /
        ((groups.flatten.length : ℚ) - (groups.length : ℚ)) ∧
      r.F_calculated = r.MS_between / r.MS_within ∧
      r.SS_between + r.SS_within = r.SS_total := by
  refine ⟨_, rfl, rfl, rfl, rfl, ?_, ?_, rfl, by ring⟩
  · show _ / ((((groups.length : ℤ) - 1 : ℤ)) : ℚ) = _ / _
    push_cast
    ring
  · show _ / ((((groups.flatten.length : ℤ) - (groups.length : ℤ) : ℤ)) : ℚ) =
      _ / _
    push_cast
    ring

/-- Witness for C2 on three groups of two observations. -/
theorem manual_anova_decomposition_witness :
    (2 ≤ [[(1:ℚ), 2], [3, 4], [5, 6]].length) ∧
    (∀ g ∈ [[(1:ℚ), 2], [3, 4], [5, 6]], 2 ≤ g.length) ∧
    ∃ r, manual_anova [[(1:ℚ), 2], [3, 4], [5, 6]] = Except.ok r ∧
      r.SS_between = ([[(1:ℚ), 2], [3, 4], [5, 6]].map (fun g =>
        (g.length : ℚ) *
          (npmean g - npmean [[(1:ℚ), 2], [3, 4], [5, 6]].flatten) ^ 2)).sum ∧
      r.SS_total = ([[(1:ℚ), 2], [3, 4], [5, 6]].flatten.map (fun x =>
        (x - npmean [[(1:ℚ), 2], [3, 4], [5, 6]].flatten) ^ 2)).sum ∧
      r.SS_within = r.SS_total - r.SS_between ∧
      r.MS_between = r.SS_between /
        (([[(1:ℚ), 2], [3, 4], [5, 6]].length : ℚ) - 1) ∧
      r.MS_within = r.SS_within /
        (([[(1:ℚ), 2], [3, 4], [5, 6]].flatten.length : ℚ) -
          ([[(1:ℚ), 2], [3, 4], [5, 6]].length : ℚ)) ∧
      r.F_calculated = r.MS_between / r.MS_within ∧
      r.SS_between + r.SS_within = r.SS_total :=
  ⟨by decide, by decide,
    manual_anova_decomposition [[(1:ℚ), 2], [3, 4], [5, 6]] (by decide)
      (by decide)⟩

/-- Claim C3 (amended): `manual_anova` performs no validation and never
fails: it returns a result record for every list of groups, including
when N − k ≤ 0 or MS_within = 0, instead of signalling
`DegenerateInput` (NumPy division past a zero denominator warns and
yields inf/nan rather than raising). -/
theorem manual_anova_total (groups : List (List ℚ)) :
    ∃ r, manual_anova groups = Except.ok r :=
  ⟨_, rfl⟩

/-- Counterexample to C3 as stated: the groups [[1,1],[2,2]] have zero
within-group variance (MS_within = 0), yet `manual_anova` succeeds with
a result record rather than failing with `DegenerateInput`.  (The
F_calculated value 0 is this embedding's total-division reading of the
1/0 that NumPy turns into inf with a warning; either way the call
returns instead of erroring.) -/
theorem manual_anova_degenerate_cex :
    manual_anova [[(1:ℚ), 1], [2, 2]] =
      Except.ok
        { SS_between := 1
          SS_within := 0
          SS_total := 1
          df_between := 1
          df_within := 2
          MS_between := 1
          MS_within := 0
          F_calculated := 0 } := by
  norm_num [manual_anova, npmean]

/-- Claim C4 (amended): `compute_pearson_r_critical` itself performs no
validation and returns a result record for every call; the range checks
live in the separate helpers `validate_sample_size`, which rejects
every n < 3, and `validate_alpha`, which rejects every alpha outside
(0,1), each returning a (False, message) pair to the caller. -/
theorem validation_is_separate (nm : Numerics) (n : ℤ) (alpha : ℚ)
    (test_type : String) (nq aq : ℚ) (hn : nq < 3)
    (ha : aq ≤ 0 ∨ 1 ≤ aq) :
    (∃ r, compute_pearson_r_critical nm n alpha test_type =
      Except.ok r) ∧
    (validate_sample_size nq).1 = false ∧
    (validate_alpha aq).1 = false := by
  refine ⟨⟨_, rfl⟩, ?_, ?_⟩
  · simp [validate_sample_size, if_pos hn]
  · simp [validate_alpha, if_pos ha]

/-- Witness for the amended C4 at n = 2, alpha = 3/2. -/
theorem validation_is_separate_witness :
    ((2 : ℚ) < 3) ∧ ((3/2 : ℚ) ≤ 0 ∨ 1 ≤ (3/2 : ℚ)) ∧
    (∃ r, compute_pearson_r_critical nmStub 2 (3/2) "two-tailed" =
      Except.ok r) ∧
    (validate_sample_size 2).1 = false ∧
    (validate_alpha (3/2)).1 = false :=
  ⟨by norm_num, by norm_num,
    validation_is_separate nmStub 2 (3/2) "two-tailed" 2 (3/2)
      (by norm_num) (by norm_num)⟩

/-- Counterexample to C4 as stated: called with n = 2 < 3 the
computation does not fail with `InvalidSampleSize`; it produces a full
result record. -/
theorem compute_pearson_r_critical_no_validation_cex :
    compute_pearson_r_critical nmStub 2 (1/2) "two-tailed" =
      Except.ok
        { sample_size := 2
          alpha := 1/2
          test_type := "two-tailed"
          degrees_of_freedom := 0
          t_critical := 3/4
          r_critical := 1 } := by
  norm_num [compute_pearson_r_critical, compute_t_critical,
    compute_degrees_of_freedom, nmStub]

/-- Claim C10: the weighted-mean computation never divides by zero:
with all four frequencies summing to zero it reports that the mean
cannot be computed (embedded as `none`), and otherwise returns
(4·f4 + 3·f3 + 2·f2 + 1·f1) / (f4 + f3 + f2 + f1). -/
theorem weighted_mean_safe (f1 f2 f3 f4 : ℤ) :
    (f1 + f2 + f3 + f4 = 0 → weighted_mean f4 f3 f2 f1 = none) ∧
    (f1 + f2 + f3 + f4 ≠ 0 → weighted_mean f4 f3 f2 f1 =
      some ((4 * (f4 : ℚ) + 3 * (f3 : ℚ) + 2 * (f2 : ℚ) + 1 * (f1 : ℚ)) /
        ((f4 : ℚ) + (f3 : ℚ) + (f2 : ℚ) + (f1 : ℚ)))) := by
  constructor
  · intro h
    simp [weighted_mean, show f4 + f3 + f2 + f1 = 0 by omega]
  · intro h
    rw [weighted_mean]
    rw [if_neg (by omega)]
    congr 1
    push_cast
    ring

/-- Witness for C10 at frequencies (f1, f2, f3, f4) = (0, 0, 0, 1). -/
theorem weighted_mean_safe_witness :
    ((0 : ℤ) + 0 + 0 + 1 ≠ 0) ∧
    weighted_mean 1 0 0 0 =
      some ((4 * (1 : ℚ) + 3 * (0 : ℚ) + 2 * (0 : ℚ) + 1 * (0 : ℚ)) /
        ((1 : ℚ) + (0 : ℚ) + (0 : ℚ) + (0 : ℚ))) :=
  ⟨by decide, (weighted_mean_safe 0 0 0 1).2 (by decide)⟩

/-- Claim C5: every `CorrelationResult` produced by
`analyze_excel_correlation` or by `get_all_correlation_pairs` satisfies
is_significant = true exactly when |r_value| > r_critical for the
embedded critical value. -/
theorem correlation_significance_iff (nm : Numerics) (df : Frame)
    (c1 c2 : String) (alpha : ℚ) (tt : String)
    (res res2 : CorrelationResult)
    (h1 : analyze_excel_correlation nm df c1 c2 alpha tt = Except.ok res)
    (h2 : res2 ∈ get_all_correlation_pairs nm df alpha tt) :
    ((res.is_significant = true ↔
        |res.corr.r_value| > res.crit.r_critical) ∧
      res.crit.sample_size = (res.corr.sample_size : ℤ) ∧
      res.crit.alpha = alpha ∧ res.crit.test_type = tt) ∧
    ((res2.is_significant = true ↔
        |res2.corr.r_value| > res2.crit.r_critical) ∧
      res2.crit.sample_size = (res2.corr.sample_size : ℤ) ∧
      res2.crit.alpha = alpha ∧ res2.crit.test_type = tt) := by
  constructor
  · by_cases hv : (validate_columns_for_correlation nm df c1 c2).1 = false
    · rw [analyze_excel_correlation, if_pos hv] at h1
      exact absurd h1 (by simp)
    · rw [analyze_excel_correlation, if_neg hv] at h1
      simp only [compute_pearson_r_critical] at h1
      rw [Except.ok.injEq] at h1
      subst h1
      exact ⟨by simp [decide_eq_true_eq], rfl, rfl, rfl⟩
  · rw [get_all_correlation_pairs] at h2
    split at h2
    · simp at h2
    · rw [List.mem_filterMap] at h2
      obtain ⟨p, hp, hf⟩ := h2
      by_cases hv : (validate_columns_for_correlation nm df p.1 p.2).1 = false
      · rw [pairBody, if_pos hv] at hf
        exact absurd hf (by simp)
      · rw [pairBody, if_neg hv] at hf
        simp only [compute_pearson_r_critical] at hf
        rw [Option.some.injEq] at hf
        subst hf
        exact ⟨by simp [decide_eq_true_eq], rfl, rfl, rfl⟩

/-- A concrete two-column frame for the C5 witness. -/
def df0 : Frame := [("A", [some 1, some 2, some 3]),
                    ("B", [some 1, some 2, some 4])]

/-- The result the pipeline produces on `df0` with the stub numerics. -/
def res0 : CorrelationResult :=
  { corr :=
      { column_1 := "A"
        column_2 := "B"
        sample_size := 3
        r_value := 1/2
        p_value := 1/100
        original_rows := 3
        rows_with_missing := 0 }
    crit :=
      { sample_size := 3
        alpha := 1/20
        test_type := "two-tailed"
        degrees_of_freedom := 1
        t_critical := 39/40
        r_critical := 1521/3121 }
    is_significant := true }

/-- Witness for C5 on `df0`. -/
theorem correlation_significance_iff_witness :
    (analyze_excel_correlation nmStub df0 "A" "B" (1/20) "two-tailed" =
      Except.ok res0) ∧
    (res0 ∈ get_all_correlation_pairs nmStub df0 (1/20) "two-tailed") ∧
    (((res0.is_significant = true ↔
         |res0.corr.r_value| > res0.crit.r_critical) ∧
       res0.crit.sample_size = (res0.corr.sample_size : ℤ) ∧
       res0.crit.alpha = 1/20 ∧ res0.crit.test_type = "two-tailed") ∧
     ((res0.is_significant = true ↔
         |res0.corr.r_value| > res0.crit.r_critical) ∧
       res0.crit.sample_size = (res0.corr.sample_size : ℤ) ∧
       res0.crit.alpha = 1/20 ∧ res0.crit.test_type = "two-tailed")) :=
  ⟨by norm_num +decide [analyze_excel_correlation,
      validate_columns_for_correlation, getCol, cleanPair, pairOpt,
      List.filterMap_cons, seriesStd, sampleVar, npmean,
      compute_correlation_from_data, compute_pearson_r_critical,
      compute_t_critical, compute_degrees_of_freedom, rowCount, pairBody, abs_div, abs_one, abs_two, nmStub,
      df0, res0],
   by norm_num +decide [get_all_correlation_pairs, get_numeric_columns,
      pairsOf, validate_columns_for_correlation, getCol, cleanPair,
      pairOpt, List.filterMap_cons, seriesStd, sampleVar, npmean,
      compute_correlation_from_data, compute_pearson_r_critical,
      compute_t_critical, compute_degrees_of_freedom, rowCount, pairBody, abs_div, abs_one, abs_two, nmStub,
      df0, res0],
   correlation_significance_iff nmStub df0 "A" "B" (1/20) "two-tailed"
     res0 res0
     (by norm_num +decide [analyze_excel_correlation,
        validate_columns_for_correlation, getCol, cleanPair, pairOpt,
        List.filterMap_cons, seriesStd, sampleVar, npmean,
        compute_correlation_from_data, compute_pearson_r_critical,
        compute_t_critical, compute_degrees_of_freedom, rowCount, pairBody, abs_div, abs_one, abs_two, nmStub,
        df0, res0])
     (by norm_num +decide [get_all_correlation_pairs, get_numeric_columns,
        pairsOf, validate_columns_for_correlation, getCol, cleanPair,
        pairOpt, List.filterMap_cons, seriesStd, sampleVar, npmean,
        compute_correlation_from_data, compute_pearson_r_critical,
        compute_t_critical, compute_degrees_of_freedom, rowCount, pairBody, abs_div, abs_one, abs_two, nmStub,
        df0, res0])⟩

/-- Claim C6: the Tukey post-hoc table is produced exactly when the
ANOVA p-value is below the fixed alpha of 0.05 (`posthoc_table` stays
`None` for p ≥ 0.05), and when produced it has one entry per unordered
pair of groups — k·(k−1)/2 entries for k groups, hence three for three
groups. -/
theorem posthoc_iff_significant (nm : Numerics)
    (qhw : String → String → ℚ) (groups : List (List ℚ))
    (labels : List String) (hlen : labels.length = groups.length) :
    ∃ rep, create_anova_report nm qhw groups labels = Except.ok rep ∧
      (rep.posthoc_table = none ↔ ¬ ((nm.f_oneway groups).2 < 1/20)) ∧
      (∀ tbl, rep.posthoc_table = some tbl →
        (nm.f_oneway groups).2 < 1/20 ∧
        tbl.length = Nat.choose groups.length 2) := by
  rcases hma : manual_anova groups with e | a
  · exact absurd hma (by simp [manual_anova])
  · rw [create_anova_report, hma]
    refine ⟨_, rfl, ?_, ?_⟩
    · by_cases hp : (nm.f_oneway groups).2 < 1/20
      · simp [hp]
      · simp [hp]
    · intro tbl htbl
      by_cases hp : (nm.f_oneway groups).2 < 1/20
      · rw [if_pos hp] at htbl
        rw [Option.some.injEq] at htbl
        subst htbl
        refine ⟨hp, ?_⟩
        rw [pairwise_tukeyhsd, List.length_map, pairsOf_length,
          List.length_zip, hlen, min_self]
      · rw [if_neg hp] at htbl
        exact absurd htbl (by simp)

/-- Witness for C6: three groups, significant stubbed p-value, three
post-hoc pairs. -/
theorem posthoc_iff_significant_witness :
    (["G1", "G2", "G3"].length = [[(1:ℚ), 2], [3, 4], [5, 6]].length) ∧
    ∃ rep, create_anova_report nmStub (fun _ _ => 1)
        [[(1:ℚ), 2], [3, 4], [5, 6]] ["G1", "G2", "G3"] = Except.ok rep ∧
      (rep.posthoc_table = none ↔
        ¬ ((nmStub.f_oneway [[(1:ℚ), 2], [3, 4], [5, 6]]).2 < 1/20)) ∧
      (∀ tbl, rep.posthoc_table = some tbl →
        (nmStub.f_oneway [[(1:ℚ), 2], [3, 4], [5, 6]]).2 < 1/20 ∧
        tbl.length = Nat.choose [[(1:ℚ), 2], [3, 4], [5, 6]].length 2) :=
  ⟨by decide,
    posthoc_iff_significant nmStub (fun _ _ => 1)
      [[(1:ℚ), 2], [3, 4], [5, 6]] ["G1", "G2", "G3"] (by decide)⟩

/-- Claim C7: `get_all_correlation_pairs` iterates over every unordered
pair of numeric columns; every result in the output passed validation
(so a pair failing validation — e.g. one involving a zero-variance
column — is omitted, with no error raised), and every pair passing
validation contributes a result. -/
theorem allPairs_skips_invalid (nm : Numerics) (df : Frame) (alpha : ℚ)
    (tt : String) (res : CorrelationResult) (p : String × String)
    (h1 : res ∈ get_all_correlation_pairs nm df alpha tt)
    (h2 : p ∈ pairsOf (get_numeric_columns df))
    (h3 : (validate_columns_for_correlation nm df p.1 p.2).1 = true) :
    (validate_columns_for_correlation nm df res.corr.column_1
      res.corr.column_2).1 = true ∧
    ∃ res2, res2 ∈ get_all_correlation_pairs nm df alpha tt ∧
      res2.corr.column_1 = p.1 ∧ res2.corr.column_2 = p.2 := by
  constructor
  · rw [get_all_correlation_pairs] at h1
    split at h1
    · simp at h1
    · rw [List.mem_filterMap] at h1
      obtain ⟨q, hq, hf⟩ := h1
      by_cases hv :
          (validate_columns_for_correlation nm df q.1 q.2).1 = false
      · rw [pairBody, if_pos hv] at hf
        exact absurd hf (by simp)
      · rw [pairBody, if_neg hv] at hf
        simp only [compute_pearson_r_critical] at hf
        rw [Option.some.injEq] at hf
        subst hf
        simpa [compute_correlation_from_data] using
          eq_true_of_ne_false hv
  · by_cases hlt : (get_numeric_columns df).length < 2
    · rw [pairsOf_eq_nil_of_short _ hlt] at h2
      simp at h2
    · rcases hb : pairBody nm df alpha tt p with _ | z
      · rw [pairBody, if_neg (by simp [h3])] at hb
        simp only [compute_pearson_r_critical] at hb
        exact absurd hb (by simp)
      · have hz := hb
        rw [pairBody, if_neg (by simp [h3])] at hz
        simp only [compute_pearson_r_critical] at hz
        rw [Option.some.injEq] at hz
        subst hz
        have hmem := List.mem_filterMap.mpr ⟨p, h2, hb⟩
        rw [get_all_correlation_pairs, if_neg hlt]
        exact ⟨_, hmem, rfl, rfl⟩

/-- A frame whose column "A" is constant (zero variance), for the C7
witness. -/
def df1 : Frame := [("A", [some 1, some 1, some 1]),
                    ("B", [some 1, some 2, some 3]),
                    ("C", [some 2, some 1, some 5])]

/-- The single surviving pair result on `df1`: only ("B","C") passes
validation. -/
def res1 : CorrelationResult :=
  { corr :=
      { column_1 := "B"
        column_2 := "C"
        sample_size := 3
        r_value := 1/2
        p_value := 1/100
        original_rows := 3
        rows_with_missing := 0 }
    crit :=
      { sample_size := 3
        alpha := 1/20
        test_type := "two-tailed"
        degrees_of_freedom := 1
        t_critical := 39/40
        r_critical := 1521/3121 }
    is_significant := true }

/-- Witness for C7 on `df1`: the zero-variance column "A" is omitted
from every output pair, no error is raised, and the valid pair
("B","C") survives. -/
theorem allPairs_skips_invalid_witness :
    (res1 ∈ get_all_correlation_pairs nmStub df1 (1/20) "two-tailed") ∧
    (("B", "C") ∈ pairsOf (get_numeric_columns df1)) ∧
    ((validate_columns_for_correlation nmStub df1 "B" "C").1 = true) ∧
    ((validate_columns_for_correlation nmStub df1 res1.corr.column_1
        res1.corr.column_2).1 = true ∧
      ∃ res2, res2 ∈ get_all_correlation_pairs nmStub df1 (1/20)
          "two-tailed" ∧
        res2.corr.column_1 = "B" ∧ res2.corr.column_2 = "C") ∧
    ((get_all_correlation_pairs nmStub df1 (1/20) "two-tailed").map
      (fun r => (r.corr.column_1, r.corr.column_2)) = [("B", "C")]) :=
  ⟨by norm_num +decide [get_all_correlation_pairs, get_numeric_columns,
      pairsOf, validate_columns_for_correlation, getCol, cleanPair,
      pairOpt, List.filterMap_cons, seriesStd, sampleVar, npmean,
      compute_correlation_from_data, compute_pearson_r_critical,
      compute_t_critical, compute_degrees_of_freedom, rowCount, pairBody, abs_div, abs_one, abs_two, nmStub,
      df1, res1],
   by decide,
   by norm_num +decide [validate_columns_for_correlation, getCol,
      cleanPair, pairOpt, List.filterMap_cons, seriesStd, sampleVar,
      npmean, nmStub, df1],
   allPairs_skips_invalid nmStub df1 (1/20) "two-tailed" res1 ("B", "C")
     (by norm_num +decide [get_all_correlation_pairs, get_numeric_columns,
        pairsOf, validate_columns_for_correlation, getCol, cleanPair,
        pairOpt, List.filterMap_cons, seriesStd, sampleVar, npmean,
        compute_correlation_from_data, compute_pearson_r_critical,
        compute_t_critical, compute_degrees_of_freedom, rowCount, pairBody, abs_div, abs_one, abs_two, nmStub,
        df1, res1])
     (by decide)
     (by norm_num +decide [validate_columns_for_correlation, getCol,
        cleanPair, pairOpt, List.filterMap_cons, seriesStd, sampleVar,
        npmean, nmStub, df1]),
   by norm_num +decide [get_all_correlation_pairs, get_numeric_columns,
      pairsOf, validate_columns_for_correlation, getCol, cleanPair,
      pairOpt, List.filterMap_cons, seriesStd, sampleVar, npmean,
      compute_correlation_from_data, compute_pearson_r_critical,
      compute_t_critical, compute_degrees_of_freedom, rowCount, pairBody, abs_div, abs_one, abs_two, nmStub,
      df1]⟩

/-- Claim C8: for samples each with at least 2 observations, the
t-test computes Bessel-corrected sample variances and returns the
Welch-Satterthwaite degrees of freedom
(var1/n1 + var2/n2)² / ((var1/n1)²/(n1−1) + (var2/n2)²/(n2−1)). -/
theorem welch_df_formula (nm : Numerics) (g1 g2 : List ℚ)
    (h1 : 2 ≤ g1.length) (h2 : 2 ≤ g2.length) :
    ∃ r, compute_ttest nm g1 g2 = some r ∧
      r.n1 = g1.length ∧ r.n2 = g2.length ∧
      r.mean1 = npmean g1 ∧ r.mean2 = npmean g2 ∧
      r.df =
        ((g1.map (fun x => (x - npmean g1) ^ 2)).sum /
            ((g1.length : ℚ) - 1) / (g1.length : ℚ) +
          (g2.map (fun x => (x - npmean g2) ^ 2)).sum /
            ((g2.length : ℚ) - 1) / (g2.length : ℚ)) ^ 2 /
        (((g1.map (fun x => (x - npmean g1) ^ 2)).sum /
            ((g1.length : ℚ) - 1) / (g1.length : ℚ)) ^ 2 /
            ((g1.length : ℚ) - 1) +
          ((g2.map (fun x => (x - npmean g2) ^ 2)).sum /
            ((g2.length : ℚ) - 1) / (g2.length : ℚ)) ^ 2 /
            ((g2.length : ℚ) - 1)) := by
  rw [compute_ttest, if_neg (by omega), if_neg (by omega)]
  exact ⟨_, rfl, rfl, rfl, rfl, rfl, rfl⟩

/-- Witness for C8 on the samples [1,2] and [1,3]. -/
theorem welch_df_formula_witness :
    (2 ≤ [(1:ℚ), 2].length) ∧ (2 ≤ [(1:ℚ), 3].length) ∧
    ∃ r, compute_ttest nmStub [(1:ℚ), 2] [(1:ℚ), 3] = some r ∧
      r.n1 = [(1:ℚ), 2].length ∧ r.n2 = [(1:ℚ), 3].length ∧
      r.mean1 = npmean [(1:ℚ), 2] ∧ r.mean2 = npmean [(1:ℚ), 3] ∧
      r.df =
        (([(1:ℚ), 2].map (fun x => (x - npmean [(1:ℚ), 2]) ^ 2)).sum /
            (([(1:ℚ), 2].length : ℚ) - 1) / ([(1:ℚ), 2].length : ℚ) +
          ([(1:ℚ), 3].map (fun x => (x - npmean [(1:ℚ), 3]) ^ 2)).sum /
            (([(1:ℚ), 3].length : ℚ) - 1) / ([(1:ℚ), 3].length : ℚ)) ^ 2 /
        ((([(1:ℚ), 2].map (fun x => (x - npmean [(1:ℚ), 2]) ^ 2)).sum /
            (([(1:ℚ), 2].length : ℚ) - 1) / ([(1:ℚ), 2].length : ℚ)) ^ 2 /
            (([(1:ℚ), 2].length : ℚ) - 1) +
          (([(1:ℚ), 3].map (fun x => (x - npmean [(1:ℚ), 3]) ^ 2)).sum /
            (([(1:ℚ), 3].length : ℚ) - 1) / ([(1:ℚ), 3].length : ℚ)) ^ 2 /
            (([(1:ℚ), 3].length : ℚ) - 1)) :=
  ⟨by decide, by decide,
    welch_df_formula nmStub [(1:ℚ), 2] [(1:ℚ), 3] (by decide) (by decide)⟩

/-- Claim C9: for alpha in (0,1) and df ≥ 1, `compute_t_critical` uses
probability mass 1 − alpha/2 on the two-tailed mode and 1 − alpha on
every other mode (any non-two-tailed string takes the one-tailed
branch), returning the t-distribution inverse CDF at that mass with the
given df; the script src/pearsonR.py uses the same two-tailed mass. -/
theorem t_critical_mass (nm : Numerics) (alpha : ℚ) (df : ℤ)
    (tt : String) (h0 : 0 < alpha) (h1 : alpha < 1) (hdf : 1 ≤ df) :
    (tt = "two-tailed" →
      compute_t_critical nm alpha df tt = nm.tppf (1 - alpha / 2) df) ∧
    (tt ≠ "two-tailed" →
      compute_t_critical nm alpha df tt = nm.tppf (1 - alpha) df) ∧
    pearsonR_t_crit nm = nm.tppf (1 - (1/20) / 2) pearsonR_df := by
  refine ⟨?_, ?_, rfl⟩
  · intro h
    rw [compute_t_critical, if_pos h]
  · intro h
    rw [compute_t_critical, if_neg h]

/-- Witness for C9 at alpha = 1/20, df = 10, on the two-tailed mode and
on a non-two-tailed mode string. -/
theorem t_critical_mass_witness :
    (0 < (1/20 : ℚ)) ∧ ((1/20 : ℚ) < 1) ∧ (1 ≤ (10 : ℤ)) ∧
    compute_t_critical nmStub (1/20) 10 "two-tailed" =
      nmStub.tppf (1 - (1/20) / 2) 10 ∧
    compute_t_critical nmStub (1/20) 10 "one-sided" =
      nmStub.tppf (1 - 1/20) 10 :=
  ⟨by norm_num, by norm_num, by decide,
    (t_critical_mass nmStub (1/20) 10 "two-tailed" (by norm_num)
      (by norm_num) (by decide)).1 rfl,
    (t_critical_mass nmStub (1/20) 10 "one-sided" (by norm_num)
      (by norm_num) (by decide)).2.1 (by decide)⟩

end StatTools
